import Mathlib

/-!
Verification of the ChronosFlow (TimeMNGR) XP scoring and economy engine.

The definitions below are a shallow embedding of the application code:
the reward engine (the totalXP useMemo in src/sw.js lines 235-267, and the
matching engine in src/index.tsx lines 428-462), the shop ledger
(buyReward), the status operations (cycleStatus, toggleSub) and the
timer (stopTimer).  JavaScript numbers are modelled as rationals where the
code multiplies by 1.2 / 0.8 / 1.1, as integers for XP amounts and as
naturals for counters and timestamps.  Math.round in JavaScript rounds
half toward positive infinity, which is exactly the Mathlib `round`
(floor of x + 1/2).  Optional JavaScript fields are `Option`; JavaScript
truthiness of the numeric field xpStakes (0 and undefined are falsy) is
modelled by `stakeTruthy`.
-/

namespace TimeMNGR

/-- Priority enum from the source (enum Priority with LOW, MEDIUM, HIGH). -/
inductive Priority
  | LOW
  | MEDIUM
  | HIGH
  deriving DecidableEq, Repr

/-- Task status from the source (type TaskStatus = todo | partial | done).
The middle literal is named `inProgress` here because its source name is a
reserved word in Lean. -/
inductive TaskStatus
  | todo
  | inProgress
  | done
  deriving DecidableEq, Repr

/-- Source interface SubTask: id, title, completed, xpValue. -/
structure SubTask where
  id : String
  title : String
  completed : Bool
  xpValue : Int
  deriving DecidableEq, Repr

/-- Source scheduledBlock record of a task: startHour, startMinute,
durationHours.  The duration may be fractional (e.g. 4.5), hence `ℚ`. -/
structure TimeBlock where
  startHour : Nat
  startMinute : Nat
  durationHours : ℚ
  deriving DecidableEq, Repr

/-- Source interface Task from src/sw.js lines 37-48. -/
structure Task where
  id : String
  title : String
  description : String
  priority : Priority
  status : TaskStatus
  createdAt : Nat
  scheduledBlock : TimeBlock
  subTasks : Option (List SubTask)
  linkedPlanningTaskId : Option String
  xpStakes : Option Int
  deriving DecidableEq, Repr

/-- Source interface TimeLog from src/sw.js lines 50-57; duration is in
whole seconds. -/
structure TimeLog where
  id : String
  taskId : String
  taskTitle : String
  startTime : Nat
  endTime : Nat
  duration : Nat
  deriving DecidableEq, Repr

/-- Source interface Reward: id, title, cost, icon, count. -/
structure Reward where
  id : String
  title : String
  cost : Int
  icon : String
  count : Nat
  deriving DecidableEq, Repr

/-- JavaScript truthiness of the optional numeric field xpStakes:
undefined and 0 are falsy, every other number is truthy.  This decides
which branch the engine test `if (t.xpStakes)` takes. -/
def stakeTruthy : Option Int → Bool
  | some s => s != 0
  | none => false

/-- Helper for the JavaScript String includes method: `pat` occurs as a
contiguous sublist of the second argument. -/
def listInfixCheck (pat : List Char) : List Char → Bool
  | [] => pat.isEmpty
  | c :: t => pat.isPrefixOf (c :: t) || listInfixCheck pat t

/-- Source expression s.includes(pat) from JavaScript. -/
def strIncludes (s pat : String) : Bool :=
  listInfixCheck pat.toList s.toList

/-- Title test on src/sw.js line 246: the title includes "Night Routine". -/
def nightClass (title : String) : Bool :=
  strIncludes title "Night Routine"

/-- Title test on src/sw.js line 248: the title includes "Morning" or
"Training" or "Education". -/
def standardClass (title : String) : Bool :=
  strIncludes title "Morning" || strIncludes title "Training" || strIncludes title "Education"

/-- Source expression on src/sw.js line 243: the length of the sub-task
list filtered to the completed ones. -/
def completedCount (subs : List SubTask) : Nat :=
  (subs.filter (fun st => st.completed)).length

/-- The sub-task branch of the engine (src/sw.js lines 242-252): linear
per-sub-task amount with title-class dependent completion bonus and
non-engagement penalty. -/
def subTaskBase (title : String) (subs : List SubTask) : ℚ :=
  if nightClass title then
    (completedCount subs : ℚ) * 20
      + (if completedCount subs = subs.length then 40 else 0)
      - (if completedCount subs = 0 then 50 else 0)
  else if standardClass title then
    (completedCount subs : ℚ) * 10
      + (if completedCount subs = subs.length then 25 else 0)
      - (if completedCount subs = 0 then 25 else 0)
  else
    (completedCount subs : ℚ) * 10

/-- Per-task base value taskBase before the priority multiplier
(src/sw.js lines 238-256): stake branch first, then sub-task branch, then
the plain-task branch. -/
def taskBaseRaw (t : Task) : ℚ :=
  if stakeTruthy t.xpStakes then
    match t.xpStakes with
    | some s =>
      if t.status = TaskStatus.done then (s : ℚ)
      else if t.status = TaskStatus.todo then -(s : ℚ)
      else 0
    | none => 0
  else
    match t.subTasks with
    | some subs => subTaskBase t.title subs
    | none =>
      (if t.status = TaskStatus.done then (50 : ℚ) else 0)
        + (if t.status = TaskStatus.inProgress then (20 : ℚ) else 0)

/-- The factors 1.2 / 0.8 / 1.0 applied per priority (src/sw.js lines 257-260). -/
def priorityFactor : Priority → ℚ
  | Priority.HIGH => 12 / 10
  | Priority.LOW => 8 / 10
  | Priority.MEDIUM => 1

/-- Contribution of one task to rawXP: the base, multiplied by the
priority factor only when the base is positive and the status is done
(src/sw.js lines 257-261). -/
def taskContribution (t : Task) : ℚ :=
  if 0 < taskBaseRaw t ∧ t.status = TaskStatus.done then
    taskBaseRaw t * priorityFactor t.priority
  else
    taskBaseRaw t

/-- Engine value rawXP: sum of all task contributions (src/sw.js lines 236-262). -/
def rawXP (tasks : List Task) : ℚ :=
  (tasks.map taskContribution).sum

/-- Engine value for the reduce over all log durations. -/
def totalFocusSeconds (logs : List TimeLog) : Nat :=
  (logs.map (fun l => l.duration)).sum

/-- Engine value focusBonus: floor of total seconds over 1800, times 5
(src/sw.js line 263); `Nat` division is the floor. -/
def focusBonus (logs : List TimeLog) : Nat :=
  totalFocusSeconds logs / 1800 * 5

/-- Engine value: number of tasks whose status is done. -/
def doneCount (tasks : List Task) : Nat :=
  (tasks.filter (fun t => decide (t.status = TaskStatus.done))).length

/-- Engine value adherenceRate (src/sw.js line 264): done count over task
count when the list is nonempty, otherwise 0. -/
def adherenceRate (tasks : List Task) : ℚ :=
  if 0 < tasks.length then (doneCount tasks : ℚ) / (tasks.length : ℚ) else 0

/-- Engine value adherenceMultiplier (src/sw.js line 265): 1.1 when the
adherence rate reaches 0.8, otherwise 1.0. -/
def adherenceMultiplier (tasks : List Task) : ℚ :=
  if 8 / 10 ≤ adherenceRate tasks then 11 / 10 else 1

/-- Engine output totalXP (src/sw.js line 266): the maximum of 0 and the
rounding of (rawXP + focusBonus) times the adherence multiplier. -/
def totalXP (tasks : List Task) (logs : List TimeLog) : ℤ :=
  max 0 (round ((rawXP tasks + (focusBonus logs : ℚ)) * adherenceMultiplier tasks))

/-- Derived value currentBalance (src/sw.js line 269): totalXP minus spentXP. -/
def currentBalance (tasks : List Task) (logs : List TimeLog) (spentXP : ℤ) : ℤ :=
  totalXP tasks logs - spentXP

/-- Source function buyReward (src/sw.js lines 306-312): look the reward
up; when the current balance covers the cost, add the cost to spentXP and
increment the redemption count of the matching reward; otherwise change
nothing.  The first argument is the engine output totalXP. -/
def buyReward (totalXPv : ℤ) (rewards : List Reward) (spentXP : ℤ) (id : String) :
    List Reward × ℤ :=
  match rewards.find? (fun r => decide (r.id = id)) with
  | some r =>
    if r.cost ≤ totalXPv - spentXP then
      (rewards.map (fun x => if x.id = id then { x with count := x.count + 1 } else x),
        spentXP + r.cost)
    else (rewards, spentXP)
  | none => (rewards, spentXP)

/-- The cyclic successor of a status (src/sw.js line 296). -/
def nextStatus : TaskStatus → TaskStatus
  | TaskStatus.todo => TaskStatus.inProgress
  | TaskStatus.inProgress => TaskStatus.done
  | TaskStatus.done => TaskStatus.todo

/-- The per-task effect of cycleStatus (src/sw.js lines 293-304): advance
the status and set the completed flag of every sub-task to whether the
next status is done.  The source additionally marks a linked planning goal
completed when the next status is done; that side effect touches only the
planning store, never the task record, and no claim depends on it. -/
def cycleTask (t : Task) : Task :=
  { t with
    status := nextStatus t.status,
    subTasks := t.subTasks.map (fun subs =>
      subs.map (fun s => { s with completed := decide (nextStatus t.status = TaskStatus.done) })) }

/-- Source function cycleStatus over the task list (src/sw.js lines 293-304). -/
def cycleStatus (id : String) (tasks : List Task) : List Task :=
  tasks.map (fun t => if t.id = id then cycleTask t else t)

/-- Status recomputation used by the sub-task toggle (src/index.tsx line
497, src/sw.js line 406): done when every sub-task is completed, otherwise
the middle status when some are, otherwise todo. -/
def deriveStatus (subs : List SubTask) : TaskStatus :=
  if subs.all (fun s => s.completed) then TaskStatus.done
  else if subs.any (fun s => s.completed) then TaskStatus.inProgress
  else TaskStatus.todo

/-- The per-task effect of toggleSub (src/index.tsx lines 491-501; the
same logic is inlined in src/sw.js lines 400-409): flip the matching
sub-task and recompute the status from the new completion flags.  When the
task has no sub-task list, every and some on undefined are falsy and the
source sets the status to todo. -/
def toggleSubTask (sid : String) (t : Task) : Task :=
  match t.subTasks with
  | some subs =>
    let ns := subs.map (fun s => if s.id = sid then { s with completed := !s.completed } else s)
    { t with subTasks := some ns, status := deriveStatus ns }
  | none => { t with status := TaskStatus.todo }

/-- Source function toggleSub over the task list (src/index.tsx lines 491-501). -/
def toggleSub (tid sid : String) (tasks : List Task) : List Task :=
  tasks.map (fun t => if t.id = tid then toggleSubTask sid t else t)

/-- Source function stopTimer (src/sw.js lines 321-329): clear the tick,
and only when the selected task exists and the elapsed counter is
positive, prepend one new log entry whose duration is the counter, whose
start is the recorded start timestamp and whose end is the stop-time clock
reading.  Returns the new log list together with the reset pair
(timerRunning, timerSeconds).  The argument newId stands for the generated
random UUID. -/
def stopTimer (tasks : List Task) (logs : List TimeLog) (timerTaskId : String)
    (timerSeconds : Nat) (timerStart : Nat) (now : Nat) (newId : String) :
    List TimeLog × Bool × Nat :=
  match tasks.find? (fun t => decide (t.id = timerTaskId)) with
  | some task =>
    if 0 < timerSeconds then
      ({ id := newId, taskId := task.id, taskTitle := task.title,
         startTime := timerStart, endTime := now, duration := timerSeconds } :: logs,
        false, 0)
    else (logs, false, 0)
  | none => (logs, false, 0)

/-- Source function getDailyExercises (src/sw.js lines 60-71),
parameterised by the day of week instead of reading the wall clock. -/
def getDailyExercises (day : Nat) : List String :=
  match day with
  | 1 => ["Burpies", "Pull ups"]
  | 2 => ["Push ups", "Supermans"]
  | 3 => ["Squats", "Face pulls"]
  | 4 => ["Pull ups", "Push ups"]
  | 5 => ["Burpies", "Supermans"]
  | 6 => ["Squats", "Face pulls"]
  | _ => ["Mobility Flow", "Stretching"]

/-- Source function getDefaultProtocol (src/sw.js lines 73-105),
parameterised by the current timestamp and the day of week used for the
daily exercises. -/
def getDefaultProtocol (now : Nat) (day : Nat) : List Task :=
  let ex := getDailyExercises day
  [ { id := "t1", title := "Morning Routine", description := "Daily standard morning habits",
      priority := Priority.HIGH, status := TaskStatus.todo, createdAt := now,
      scheduledBlock := { startHour := 5, startMinute := 30, durationHours := 2 },
      subTasks := some
        [ { id := "mr1", title := "Hanging", completed := false, xpValue := 10 },
          { id := "mr2", title := "Stretching", completed := false, xpValue := 10 },
          { id := "mr3", title := "Breathing", completed := false, xpValue := 10 },
          { id := "mr4", title := "Make Bed", completed := false, xpValue := 10 },
          { id := "mr5", title := "BMCJJ", completed := false, xpValue := 10 } ],
      linkedPlanningTaskId := none, xpStakes := none },
    { id := "t2", title := "1 Thing (Deepwork)", description := "Primary focus objective",
      priority := Priority.HIGH, status := TaskStatus.todo, createdAt := now,
      scheduledBlock := { startHour := 7, startMinute := 30, durationHours := 2 },
      subTasks := none, linkedPlanningTaskId := none, xpStakes := some 100 },
    { id := "t3", title := "Training", description := "Physical maintenance block",
      priority := Priority.MEDIUM, status := TaskStatus.todo, createdAt := now,
      scheduledBlock := { startHour := 9, startMinute := 30, durationHours := 2 },
      subTasks := some
        [ { id := "tr1", title := "Steps", completed := false, xpValue := 10 },
          { id := "tr2", title := "Core", completed := false, xpValue := 10 },
          { id := "tr3", title := "Cardio", completed := false, xpValue := 10 },
          { id := "tr4", title := ex.getD 0 "", completed := false, xpValue := 10 },
          { id := "tr5", title := ex.getD 1 "", completed := false, xpValue := 10 } ],
      linkedPlanningTaskId := none, xpStakes := none },
    { id := "t4", title := "B Side (Deepwork)", description := "Secondary deep work block",
      priority := Priority.HIGH, status := TaskStatus.todo, createdAt := now,
      scheduledBlock := { startHour := 11, startMinute := 30, durationHours := 2 },
      subTasks := none, linkedPlanningTaskId := none, xpStakes := some 75 },
    { id := "t5", title := "Free Time", description := "Unstructured rest and recovery",
      priority := Priority.LOW, status := TaskStatus.todo, createdAt := now,
      scheduledBlock := { startHour := 13, startMinute := 30, durationHours := 9 / 2 },
      subTasks := none, linkedPlanningTaskId := none, xpStakes := none },
    { id := "t6", title := "Education", description := "Skill acquisition and learning",
      priority := Priority.MEDIUM, status := TaskStatus.todo, createdAt := now,
      scheduledBlock := { startHour := 18, startMinute := 30, durationHours := 1 },
      subTasks := some
        [ { id := "ed1", title := "Read", completed := false, xpValue := 15 },
          { id := "ed2", title := "Coursework", completed := false, xpValue := 15 },
          { id := "ed3", title := "Practice", completed := false, xpValue := 20 } ],
      linkedPlanningTaskId := none, xpStakes := some 50 },
    { id := "t7", title := "Yoga and Mobility", description := "Evening flexibility and wind down",
      priority := Priority.LOW, status := TaskStatus.todo, createdAt := now,
      scheduledBlock := { startHour := 20, startMinute := 0, durationHours := 1 / 2 },
      subTasks := none, linkedPlanningTaskId := none, xpStakes := some 50 },
    { id := "t8", title := "Night Routine", description := "Daily standard evening habits",
      priority := Priority.MEDIUM, status := TaskStatus.todo, createdAt := now,
      scheduledBlock := { startHour := 22, startMinute := 0, durationHours := 1 / 2 },
      subTasks := some
        [ { id := "nr1", title := "Review Day", completed := false, xpValue := 20 },
          { id := "nr2", title := "Plan Tomorrow", completed := false, xpValue := 20 },
          { id := "nr3", title := "Bed time", completed := false, xpValue := 20 } ],
      linkedPlanningTaskId := none, xpStakes := none } ]

/-- Fixture: a stake task (stake 100) at status todo, so the wager is lost. -/
def exStakeTodo : Task :=
  { id := "w1", title := "Wager", description := "", priority := Priority.MEDIUM,
    status := TaskStatus.todo, createdAt := 0, scheduledBlock := ⟨0, 0, 1⟩,
    subTasks := none, linkedPlanningTaskId := none, xpStakes := some 100 }

/-- Fixture: a plain HIGH-priority task (no stakes, no sub-tasks) at done. -/
def exPlainHighDone : Task :=
  { id := "p1", title := "Plain", description := "", priority := Priority.HIGH,
    status := TaskStatus.done, createdAt := 0, scheduledBlock := ⟨0, 0, 1⟩,
    subTasks := none, linkedPlanningTaskId := none, xpStakes := none }

/-- Fixture: the same plain HIGH-priority task at the middle status. -/
def exPlainHighMid : Task :=
  { exPlainHighDone with status := TaskStatus.inProgress }

/-- Fixture: Night-Routine sub-tasks, one of three completed. -/
def exNightSubs : List SubTask :=
  [ { id := "n1", title := "Review Day", completed := true, xpValue := 20 },
    { id := "n2", title := "Plan Tomorrow", completed := false, xpValue := 20 },
    { id := "n3", title := "Bed time", completed := false, xpValue := 20 } ]

/-- Fixture: a Night-Routine-class task owning `exNightSubs`. -/
def exNight : Task :=
  { id := "nt", title := "Night Routine", description := "", priority := Priority.MEDIUM,
    status := TaskStatus.inProgress, createdAt := 0, scheduledBlock := ⟨22, 0, 1 / 2⟩,
    subTasks := some exNightSubs, linkedPlanningTaskId := none, xpStakes := none }

/-- Fixture: a plain task factory used for the adherence examples. -/
def mkPlain (i : String) (st : TaskStatus) : Task :=
  { id := i, title := "T", description := "", priority := Priority.MEDIUM,
    status := st, createdAt := 0, scheduledBlock := ⟨0, 0, 1⟩,
    subTasks := none, linkedPlanningTaskId := none, xpStakes := none }

/-- Fixture: the default first shop reward. -/
def rw1 : Reward :=
  { id := "r1", title := "Gourmet Coffee", cost := 100, icon := "fa-coffee", count := 0 }

/-- Fixture: a one-reward shop. -/
def rewards0 : List Reward := [rw1]

/-- Fixture: a single completed Education sub-task. -/
def exEduSubs : List SubTask :=
  [ { id := "ed1", title := "Read", completed := true, xpValue := 15 } ]

/-- Fixture: an Education-style task carrying both a stake and sub-tasks. -/
def exEduStake : Task :=
  { id := "e6", title := "Education", description := "", priority := Priority.MEDIUM,
    status := TaskStatus.todo, createdAt := 0, scheduledBlock := ⟨18, 30, 1⟩,
    subTasks := some exEduSubs, linkedPlanningTaskId := none, xpStakes := some 50 }

/-- Formalisation of the SPEC sentence (not of the code) that each
completed sub-task awards its own xpValue: the sum of the xpValue fields
of the completed sub-tasks.  Used to compare the reading of the spec
against the actual linear amount of the engine. -/
def specSubXP (subs : List SubTask) : ℤ :=
  ((subs.filter (fun s => s.completed)).map (fun s => s.xpValue)).sum

/-- Fixture: Morning-class sub-tasks whose xpValue disagrees with the
hard-coded per-sub-task rate of the engine. -/
def exMorningSubs : List SubTask :=
  [ { id := "a", title := "Hanging", completed := true, xpValue := 15 },
    { id := "b", title := "Stretching", completed := false, xpValue := 10 } ]

/-- Fixture: a Morning-class task owning `exMorningSubs`, some but not all
sub-tasks completed. -/
def exMorningMixed : Task :=
  { id := "c4", title := "Morning Routine", description := "", priority := Priority.MEDIUM,
    status := TaskStatus.inProgress, createdAt := 0, scheduledBlock := ⟨5, 30, 2⟩,
    subTasks := some exMorningSubs, linkedPlanningTaskId := none, xpStakes := none }

/-- The spec §3 invariant, as a predicate: the status is done iff all
sub-tasks are completed, the middle status iff some but not all, todo iff
none. -/
def statusProjection (status : TaskStatus) (subs : List SubTask) : Prop :=
  (status = TaskStatus.done ↔ subs.all (fun s => s.completed) = true) ∧
  (status = TaskStatus.inProgress ↔
    (subs.any (fun s => s.completed) = true ∧ ¬ subs.all (fun s => s.completed) = true)) ∧
  (status = TaskStatus.todo ↔ subs.all (fun s => !s.completed) = true)

/-- Fixture: a single incomplete sub-task. -/
def exSubTodoSubs : List SubTask :=
  [ { id := "s1", title := "One", completed := false, xpValue := 10 } ]

/-- Fixture: a sub-tasked task at todo, used for the status-cycle
counterexample and the toggle witness. -/
def exSubTodo : Task :=
  { id := "c8", title := "Checklist", description := "", priority := Priority.MEDIUM,
    status := TaskStatus.todo, createdAt := 0, scheduledBlock := ⟨0, 0, 1⟩,
    subTasks := some exSubTodoSubs, linkedPlanningTaskId := none, xpStakes := none }

/-- Claim C1: for every task list and time-log list the engine output is
totalXP = max(0, round((rawXP + focusBonus) × adherenceMultiplier)) and is
a non-negative integer, even when stake losses drive rawXP negative — the
concrete stake task at todo has rawXP = −100 yet totalXP = 0. -/
theorem totalXP_nonneg_and_formula (tasks : List Task) (logs : List TimeLog) :
    0 ≤ totalXP tasks logs ∧
    totalXP tasks logs =
      max 0 (round ((rawXP tasks + (focusBonus logs : ℚ)) * adherenceMultiplier tasks)) ∧
    rawXP [exStakeTodo] < 0 ∧ totalXP [exStakeTodo] [] = 0 := by
  refine ⟨le_max_left _ _, rfl, ?_, ?_⟩
  · simp [rawXP, taskContribution, taskBaseRaw, stakeTruthy, exStakeTodo]
  · simp [totalXP, rawXP, taskContribution, taskBaseRaw, stakeTruthy,
      adherenceMultiplier, adherenceRate, doneCount, focusBonus, totalFocusSeconds,
      exStakeTodo, round_eq]
    norm_num

/-- Claim C2: a task taking the stake branch (xpStakes set and nonzero)
has base contribution, before the priority multiplier, +xpStakes at done,
−xpStakes at todo, and 0 at the middle status. -/
theorem stake_contribution_symmetry (t : Task) (s : ℤ)
    (hs : t.xpStakes = some s) (hnz : s ≠ 0) :
    (t.status = TaskStatus.done → taskBaseRaw t = (s : ℚ)) ∧
    (t.status = TaskStatus.todo → taskBaseRaw t = -(s : ℚ)) ∧
    (t.status = TaskStatus.inProgress → taskBaseRaw t = 0) := by
  have ht : stakeTruthy (some s) = true := by simp [stakeTruthy, hnz]
  refine ⟨?_, ?_, ?_⟩ <;> intro h <;> simp [taskBaseRaw, hs, ht, h]

/-- Witness for claim C2 at the concrete stake task at todo. -/
theorem stake_contribution_symmetry_w :
    exStakeTodo.xpStakes = some 100 ∧ (100 : ℤ) ≠ 0 ∧
    taskBaseRaw exStakeTodo = -((100 : ℤ) : ℚ) :=
  ⟨rfl, by decide, (stake_contribution_symmetry exStakeTodo 100 rfl (by decide)).2.1 rfl⟩

/-- Claim C3: for a sub-task task (sub-tasks present, stake branch not
taken), a Night-Routine-class title scores 20 per completed sub-task with
a +40 bonus when all are completed and a −50 penalty when none are, a
standard-class title (Morning / Training / Education) scores 10 per
completed sub-task with a +25 bonus and a −25 penalty, and some-but-not-
all completion yields only the linear amount. -/
theorem subtask_bonus_penalty (t : Task) (subs : List SubTask)
    (hstake : stakeTruthy t.xpStakes = false) (hsubs : t.subTasks = some subs) :
    (nightClass t.title = true →
      taskBaseRaw t = (completedCount subs : ℚ) * 20
        + (if completedCount subs = subs.length then 40 else 0)
        - (if completedCount subs = 0 then 50 else 0)) ∧
    (nightClass t.title = false → standardClass t.title = true →
      taskBaseRaw t = (completedCount subs : ℚ) * 10
        + (if completedCount subs = subs.length then 25 else 0)
        - (if completedCount subs = 0 then 25 else 0)) ∧
    (0 < completedCount subs → completedCount subs < subs.length →
      taskBaseRaw t = (if nightClass t.title then (20 : ℚ) else 10) * (completedCount subs : ℚ)) := by
  have hbase : taskBaseRaw t = subTaskBase t.title subs := by
    simp [taskBaseRaw, hstake, hsubs]
  refine ⟨?_, ?_, ?_⟩
  · intro hn; simp [hbase, subTaskBase, hn]
  · intro hn hstd; simp [hbase, subTaskBase, hn, hstd]
  · intro h1 h2
    have hne0 : ¬ completedCount subs = 0 := by omega
    have hnel : ¬ completedCount subs = subs.length := by omega
    by_cases hn : nightClass t.title
    · simp [hbase, subTaskBase, hn, hne0, hnel]; ring
    · by_cases hstd : standardClass t.title <;>
        simp [hbase, subTaskBase, hn, hstd, hne0, hnel] <;> ring

/-- Witness for claim C3 at the concrete Night-Routine task with one of
three sub-tasks completed. -/
theorem subtask_bonus_penalty_w :
    stakeTruthy exNight.xpStakes = false ∧ exNight.subTasks = some exNightSubs ∧
    nightClass exNight.title = true ∧
    taskBaseRaw exNight = (completedCount exNightSubs : ℚ) * 20
      + (if completedCount exNightSubs = exNightSubs.length then 40 else 0)
      - (if completedCount exNightSubs = 0 then 50 else 0) :=
  ⟨rfl, rfl, by decide, (subtask_bonus_penalty exNight exNightSubs rfl rfl).1 (by decide)⟩

/-- Counterexample to claim C4 as stated: the Morning-class task with one
completed sub-task of xpValue 15 is in the some-but-not-all state, so its
base is purely the linear amount, which the engine computes as 10 — the
hard-coded rate — and not as the xpValue sum 15. -/
theorem subtask_xpvalue_counterexample :
    stakeTruthy exMorningMixed.xpStakes = false ∧
    exMorningMixed.subTasks = some exMorningSubs ∧
    0 < completedCount exMorningSubs ∧
    completedCount exMorningSubs < exMorningSubs.length ∧
    taskBaseRaw exMorningMixed = 10 ∧
    specSubXP exMorningSubs = 15 ∧
    taskBaseRaw exMorningMixed ≠ ((specSubXP exMorningSubs : ℤ) : ℚ) := by
  have hn : nightClass "Morning Routine" = false := by decide
  have hstd : standardClass "Morning Routine" = true := by decide
  have hc : completedCount exMorningSubs = 1 := by decide
  have hl : exMorningSubs.length = 2 := by decide
  have hbase : taskBaseRaw exMorningMixed = 10 := by
    simp [taskBaseRaw, stakeTruthy, exMorningMixed, subTaskBase, hn, hstd, hc, hl]
  refine ⟨rfl, rfl, by decide, by decide, hbase, by decide, ?_⟩
  rw [hbase]
  norm_num [specSubXP, exMorningSubs]

/-- Auxiliary: rewriting every xpValue leaves the completed count alone. -/
lemma completedCount_map_xp (subs : List SubTask) (f : SubTask → ℤ) :
    completedCount (subs.map (fun s => { s with xpValue := f s })) = completedCount subs := by
  induction subs with
  | nil => rfl
  | cons a l ih =>
    by_cases hc : a.completed <;>
      simp [completedCount, List.filter_cons, hc] at ih ⊢ <;> omega

/-- Claim C4 as amended: in the engine each completed sub-task awards a
fixed title-class rate — 20 in Night-Routine-class groups, 10 in all
others — so the linear contribution (the base in the some-but-not-all
state) is that rate times the completed count, and the xpValue fields of
the sub-tasks are ignored: rewriting them arbitrarily leaves the base
unchanged. -/
theorem subtask_linear_rate (t : Task) (subs : List SubTask)
    (hstake : stakeTruthy t.xpStakes = false) (hsubs : t.subTasks = some subs)
    (hlo : 0 < completedCount subs) (hhi : completedCount subs < subs.length) :
    taskBaseRaw t = (if nightClass t.title then (20 : ℚ) else 10) * (completedCount subs : ℚ) ∧
    ∀ f : SubTask → ℤ,
      taskBaseRaw { t with subTasks := some (subs.map (fun s => { s with xpValue := f s })) } =
        taskBaseRaw t := by
  have hne0 : ¬ completedCount subs = 0 := by omega
  have hnel : ¬ completedCount subs = subs.length := by omega
  have hbase : taskBaseRaw t = subTaskBase t.title subs := by
    simp [taskBaseRaw, hstake, hsubs]
  constructor
  · by_cases hn : nightClass t.title
    · simp [hbase, subTaskBase, hn, hne0, hnel]; ring
    · by_cases hstd : standardClass t.title <;>
        simp [hbase, subTaskBase, hn, hstd, hne0, hnel] <;> ring
  · intro f
    have e1 : taskBaseRaw
        { t with subTasks := some (subs.map (fun s => { s with xpValue := f s })) } =
        subTaskBase t.title (subs.map (fun s => { s with xpValue := f s })) := by
      simp [taskBaseRaw, hstake]
    rw [e1, hbase]
    simp [subTaskBase, completedCount_map_xp]

/-- Witness for the amended claim C4 at the concrete Morning-class task. -/
theorem subtask_linear_rate_w :
    stakeTruthy exMorningMixed.xpStakes = false ∧
    exMorningMixed.subTasks = some exMorningSubs ∧
    0 < completedCount exMorningSubs ∧
    completedCount exMorningSubs < exMorningSubs.length ∧
    taskBaseRaw exMorningMixed =
      (if nightClass exMorningMixed.title then (20 : ℚ) else 10) *
        (completedCount exMorningSubs : ℚ) :=
  ⟨rfl, rfl, by decide, by decide,
    (subtask_linear_rate exMorningMixed exMorningSubs rfl rfl (by decide) (by decide)).1⟩

/-- Claim C5: the priority multiplier (1.2 HIGH, 0.8 LOW, 1.0 MEDIUM) is
applied to a task contribution exactly when the base is positive and the
status is done; in every other case the base passes through unmultiplied.
In particular the plain HIGH task contributes 50 × 1.2 = 60 at done and 20
unmultiplied at the middle status. -/
theorem priority_multiplier_scope (t : Task) :
    (0 < taskBaseRaw t ∧ t.status = TaskStatus.done →
      taskContribution t = taskBaseRaw t * priorityFactor t.priority) ∧
    (¬(0 < taskBaseRaw t ∧ t.status = TaskStatus.done) →
      taskContribution t = taskBaseRaw t) ∧
    priorityFactor Priority.HIGH = 12 / 10 ∧
    priorityFactor Priority.LOW = 8 / 10 ∧
    priorityFactor Priority.MEDIUM = 1 ∧
    taskContribution exPlainHighDone = 60 ∧
    taskContribution exPlainHighMid = 20 := by
  refine ⟨fun h => by simp [taskContribution, h], fun h => by simp [taskContribution, h],
    rfl, rfl, rfl, ?_, ?_⟩
  · simp [taskContribution, taskBaseRaw, stakeTruthy, priorityFactor, exPlainHighDone]
    norm_num
  · simp [taskContribution, taskBaseRaw, stakeTruthy, exPlainHighMid, exPlainHighDone]

/-- Witness for claim C5 at the concrete plain HIGH task at done. -/
theorem priority_multiplier_scope_w :
    (0 < taskBaseRaw exPlainHighDone ∧ exPlainHighDone.status = TaskStatus.done) ∧
    taskContribution exPlainHighDone =
      taskBaseRaw exPlainHighDone * priorityFactor exPlainHighDone.priority := by
  have h : 0 < taskBaseRaw exPlainHighDone ∧ exPlainHighDone.status = TaskStatus.done := by
    constructor
    · simp [taskBaseRaw, stakeTruthy, exPlainHighDone]
    · rfl
  exact ⟨h, (priority_multiplier_scope exPlainHighDone).1 h⟩

/-- Claim C6: the adherence multiplier equals 1.1 exactly when the task
list is nonempty and the done fraction reaches 0.8 (so an empty list,
whose rate is defined as 0, gives 1.0); otherwise it is 1.0; it is applied
to (rawXP + focusBonus), where focusBonus is the floor of the total log
seconds over 1800, times 5.  The two spec examples: 3 done of 4 gives 1.0,
and 4 done of 5 gives 1.1. -/
theorem adherence_focus_spec (tasks : List Task) (logs : List TimeLog) :
    (adherenceMultiplier tasks = 11 / 10 ↔
      0 < tasks.length ∧ (8 : ℚ) / 10 ≤ (doneCount tasks : ℚ) / (tasks.length : ℚ)) ∧
    (adherenceMultiplier tasks = 11 / 10 ∨ adherenceMultiplier tasks = 1) ∧
    totalXP tasks logs =
      max 0 (round ((rawXP tasks + (focusBonus logs : ℚ)) * adherenceMultiplier tasks)) ∧
    focusBonus logs = totalFocusSeconds logs / 1800 * 5 ∧
    adherenceMultiplier
      [mkPlain "a" TaskStatus.done, mkPlain "b" TaskStatus.done,
       mkPlain "c" TaskStatus.done, mkPlain "d" TaskStatus.todo] = 1 ∧
    adherenceMultiplier
      [mkPlain "a" TaskStatus.done, mkPlain "b" TaskStatus.done,
       mkPlain "c" TaskStatus.done, mkPlain "d" TaskStatus.done,
       mkPlain "e" TaskStatus.todo] = 11 / 10 := by
  refine ⟨?_, ?_, rfl, rfl, ?_, ?_⟩
  · by_cases h : 0 < tasks.length
    · by_cases hr : (8 : ℚ) / 10 ≤ (doneCount tasks : ℚ) / (tasks.length : ℚ)
      · simp [adherenceMultiplier, adherenceRate, h, hr]
      · simp [adherenceMultiplier, adherenceRate, h, hr]
        norm_num
    · have h0 : tasks.length = 0 := by omega
      simp [adherenceMultiplier, adherenceRate, h0]
      norm_num
  · by_cases hr : (8 : ℚ) / 10 ≤ adherenceRate tasks <;> simp [adherenceMultiplier, hr]
  · simp [adherenceMultiplier, adherenceRate, doneCount, mkPlain]
    norm_num
  · simp [adherenceMultiplier, adherenceRate, doneCount, mkPlain]
    norm_num

/-- Claim C7: buying a reward of cost C succeeds exactly when the balance
totalXP − spentXP covers C; on success spentXP grows by exactly C and the
matching reward has its redemption count incremented by 1 in the same
returned state, while the other rewards pass through unchanged; with an
insufficient balance the call is a no-op on both components. -/
theorem buyReward_spec (xp spent : ℤ) (rs : List Reward) (id : String) (r : Reward)
    (hfind : rs.find? (fun x => decide (x.id = id)) = some r) :
    (r.cost ≤ xp - spent →
      buyReward xp rs spent id =
        (rs.map (fun x => if x.id = id then { x with count := x.count + 1 } else x),
          spent + r.cost)) ∧
    (xp - spent < r.cost → buyReward xp rs spent id = (rs, spent)) := by
  constructor
  · intro h; simp [buyReward, hfind, h]
  · intro h; simp [buyReward, hfind, not_le.mpr h]

/-- Witness for claim C7: buying the 100-cost coffee with balance 150. -/
theorem buyReward_spec_w :
    rewards0.find? (fun x => decide (x.id = "r1")) = some rw1 ∧
    rw1.cost ≤ 150 - 0 ∧
    buyReward 150 rewards0 0 "r1" =
      (rewards0.map (fun x => if x.id = "r1" then { x with count := x.count + 1 } else x),
        0 + rw1.cost) :=
  ⟨rfl, by decide, (buyReward_spec 150 0 rewards0 "r1" rw1 rfl).1 (by decide)⟩

/-- Counterexample to claim C8 as stated: manually cycling the sub-tasked
task at todo produces the middle status while every sub-task stays
incomplete, so the status is not the derived projection of the sub-task
completion flags after this operation. -/
theorem cycle_breaks_projection :
    cycleStatus "c8" [exSubTodo] = [cycleTask exSubTodo] ∧
    (cycleTask exSubTodo).status = TaskStatus.inProgress ∧
    (cycleTask exSubTodo).subTasks = some exSubTodoSubs ∧
    ¬ statusProjection (cycleTask exSubTodo).status exSubTodoSubs := by
  refine ⟨rfl, rfl, rfl, ?_⟩
  intro h
  exact absurd (h.2.1.mp rfl).1 (by decide)

/-- Auxiliary: on a nonempty sub-task list the recomputed status satisfies
the projection invariant. -/
lemma statusProjection_deriveStatus (subs : List SubTask) (h : subs ≠ []) :
    statusProjection (deriveStatus subs) subs := by
  obtain ⟨a, l, rfl⟩ := List.exists_cons_of_ne_nil h
  by_cases hall : (a :: l).all (fun s => s.completed) = true
  · have ha : a.completed = true := by
      simp [List.all_cons] at hall; exact hall.1
    simp [deriveStatus, hall, statusProjection, List.all_cons, ha]
  · by_cases hany : (a :: l).any (fun s => s.completed) = true
    · have hnotall : ¬ (a :: l).all (fun s => !s.completed) = true := by
        intro hcon
        obtain ⟨x, hx, hxc⟩ := List.any_eq_true.mp hany
        have := List.all_eq_true.mp hcon x hx
        simp [hxc] at this
      simp [deriveStatus, hall, hany, statusProjection, hnotall]
    · have hallneg : (a :: l).all (fun s => !s.completed) = true := by
        rw [List.all_eq_true]
        intro x hx
        have hx' : x.completed = false := by
          by_contra hcon
          exact hany (List.any_eq_true.mpr ⟨x, hx, by simpa using hcon⟩)
        simp [hx']
      simp [deriveStatus, hall, hany, statusProjection, hallneg]

/-- Auxiliary: all-completed after overwriting every completed flag. -/
lemma mapSet_all_completed (l : List SubTask) (b : Bool) :
    (l.map (fun s => { s with completed := b })).all (fun s => s.completed) =
      l.all (fun _ => b) := by
  induction l with
  | nil => rfl
  | cons a t ih => simp [ih]

/-- Auxiliary: any-completed after overwriting every completed flag. -/
lemma mapSet_any_completed (l : List SubTask) (b : Bool) :
    (l.map (fun s => { s with completed := b })).any (fun s => s.completed) =
      l.any (fun _ => b) := by
  induction l with
  | nil => rfl
  | cons a t ih => simp [ih]

/-- Auxiliary: none-completed after overwriting every completed flag. -/
lemma mapSet_all_not (l : List SubTask) (b : Bool) :
    (l.map (fun s => { s with completed := b })).all (fun s => !s.completed) =
      l.all (fun _ => !b) := by
  induction l with
  | nil => rfl
  | cons a t ih => simp [ih]

/-- Claim C8 as amended: for a task with a nonempty sub-task list, the
status is the derived projection of the sub-task completion flags after
every sub-task toggle, and after a manual cycle started from the middle or
done status; a manual cycle started from todo breaks the projection (see
the counterexample), because it advances the status to the middle value
while clearing every completed flag. -/
theorem status_projection_amended :
    (∀ (t : Task) (subs : List SubTask) (sid : String),
      t.subTasks = some subs → subs ≠ [] →
      ∃ ns, (toggleSubTask sid t).subTasks = some ns ∧
        statusProjection (toggleSubTask sid t).status ns) ∧
    (∀ (t : Task) (subs : List SubTask),
      t.subTasks = some subs → subs ≠ [] → t.status ≠ TaskStatus.todo →
      ∃ ns, (cycleTask t).subTasks = some ns ∧
        statusProjection (cycleTask t).status ns) := by
  constructor
  · intro t subs sid hsubs hne
    refine ⟨subs.map (fun s => if s.id = sid then { s with completed := !s.completed } else s),
      ?_, ?_⟩
    · simp [toggleSubTask, hsubs]
    · have hne' : subs.map
          (fun s => if s.id = sid then { s with completed := !s.completed } else s) ≠ [] := by
        simp [hne]
      have := statusProjection_deriveStatus _ hne'
      simpa [toggleSubTask, hsubs] using this
  · intro t subs hsubs hne hstat
    obtain ⟨a, l, rfl⟩ := List.exists_cons_of_ne_nil hne
    refine ⟨(a :: l).map
      (fun s => { s with completed := decide (nextStatus t.status = TaskStatus.done) }),
      by simp [cycleTask, hsubs], ?_⟩
    have hstc : (cycleTask t).status = nextStatus t.status := by simp [cycleTask]
    rw [hstc]
    cases ht : t.status with
    | todo => exact absurd ht hstat
    | inProgress =>
      simp [nextStatus, statusProjection, mapSet_all_completed, mapSet_any_completed,
        mapSet_all_not, List.all_cons, List.any_cons, List.all_eq_true]
    | done =>
      simp [nextStatus, statusProjection, mapSet_all_completed, mapSet_any_completed,
        mapSet_all_not, List.all_cons, List.any_cons, List.all_eq_true]

/-- Witness for the amended claim C8: toggling the single sub-task of the
concrete checklist task yields a status satisfying the projection. -/
theorem status_projection_amended_w :
    exSubTodo.subTasks = some exSubTodoSubs ∧ exSubTodoSubs ≠ [] ∧
    ∃ ns, (toggleSubTask "s1" exSubTodo).subTasks = some ns ∧
      statusProjection (toggleSubTask "s1" exSubTodo).status ns :=
  ⟨rfl, by decide,
    status_projection_amended.1 exSubTodo exSubTodoSubs "s1" rfl (by decide)⟩

/-- Claim C9: stopping the timer prepends exactly one new log entry — with
the duration taken from the one-second increment counter, the recorded
start timestamp, and the stop-time timestamp as end — exactly when the
selected task id resolves to a task and the elapsed counter is positive;
when no task matches or the counter is zero the log list is unchanged; in
every case the running flag and the counter are reset. -/
theorem stopTimer_spec (tasks : List Task) (logs : List TimeLog)
    (tid : String) (secs start now : Nat) (nid : String) :
    (∀ task, tasks.find? (fun t => decide (t.id = tid)) = some task → 0 < secs →
      stopTimer tasks logs tid secs start now nid =
        ({ id := nid, taskId := task.id, taskTitle := task.title,
           startTime := start, endTime := now, duration := secs } :: logs, false, 0)) ∧
    (tasks.find? (fun t => decide (t.id = tid)) = none →
      stopTimer tasks logs tid secs start now nid = (logs, false, 0)) ∧
    (secs = 0 → stopTimer tasks logs tid secs start now nid = (logs, false, 0)) := by
  refine ⟨?_, ?_, ?_⟩
  · intro task hf hsec; simp [stopTimer, hf, hsec]
  · intro hf; simp [stopTimer, hf]
  · intro hsec; subst hsec
    cases hf : tasks.find? (fun t => decide (t.id = tid)) <;> simp [stopTimer, hf]

/-- Witness for claim C9: stopping a 30-second session on the selected
plain task produces exactly one log entry with the expected fields. -/
theorem stopTimer_spec_w :
    [exPlainHighDone].find? (fun t => decide (t.id = "p1")) = some exPlainHighDone ∧
    0 < 30 ∧
    stopTimer [exPlainHighDone] [] "p1" 30 1000 2000 "L1" =
      ([{ id := "L1", taskId := exPlainHighDone.id, taskTitle := exPlainHighDone.title,
          startTime := 1000, endTime := 2000, duration := 30 }], false, 0) :=
  ⟨rfl, by decide,
    (stopTimer_spec [exPlainHighDone] [] "p1" 30 1000 2000 "L1").1 exPlainHighDone rfl (by decide)⟩

/-- Claim C10: when a task has a nonzero stake and also a sub-task list
the stake branch wins — the base is exactly the stake formula and replacing
the sub-task list changes nothing; the default protocol contains such a
task (Education, stake 50, three sub-tasks); and a zero stake is falsy, so
it does not select the stake branch. -/
theorem stake_branch_precedence (t : Task) (s : ℤ) (subs : List SubTask)
    (hs : t.xpStakes = some s) (hnz : s ≠ 0) (_hsubs : t.subTasks = some subs) :
    taskBaseRaw t =
      (if t.status = TaskStatus.done then (s : ℚ)
       else if t.status = TaskStatus.todo then -(s : ℚ) else 0) ∧
    (∀ subs' : List SubTask, taskBaseRaw { t with subTasks := some subs' } = taskBaseRaw t) ∧
    (∃ td ∈ getDefaultProtocol 0 0, td.title = "Education" ∧ td.xpStakes = some 50 ∧
      ∃ l, td.subTasks = some l ∧ l.length = 3) ∧
    stakeTruthy (some 0) = false := by
  have ht : stakeTruthy (some s) = true := by simp [stakeTruthy, hnz]
  refine ⟨?_, ?_, ?_, rfl⟩
  · simp [taskBaseRaw, hs, ht]
  · intro subs'; simp [taskBaseRaw, hs, ht]
  · exact ⟨_, List.Mem.tail _ (List.Mem.tail _ (List.Mem.tail _ (List.Mem.tail _
      (List.Mem.tail _ (List.Mem.head _))))), rfl, rfl, _, rfl, rfl⟩

/-- Witness for claim C10 at the concrete Education-style task carrying
both a stake of 50 and a completed sub-task. -/
theorem stake_branch_precedence_w :
    exEduStake.xpStakes = some 50 ∧ (50 : ℤ) ≠ 0 ∧ exEduStake.subTasks = some exEduSubs ∧
    taskBaseRaw exEduStake =
      (if exEduStake.status = TaskStatus.done then ((50 : ℤ) : ℚ)
       else if exEduStake.status = TaskStatus.todo then -((50 : ℤ) : ℚ) else 0) :=
  ⟨rfl, by decide, rfl, (stake_branch_precedence exEduStake 50 exEduSubs rfl (by decide) rfl).1⟩

end TimeMNGR
